import Mathlib

/-!
Shallow embedding of the MovieBase API authentication/authorization core.

The embedded code comes from `auth.js` (login endpoint and `generateJWTToken`)
and `index.js` (protected user/favorites route handlers).  The passport
strategies (`passport.js`) and the mongoose user model (`models.js`) are not
part of the provided sources; those pieces are modelled from the spec, and each
such definition carries a doc comment saying so.

Machine model: time is a `Nat` of seconds; the document store is a list of user
records searched front to back (mongoose `findOne` / `findOneAndUpdate` /
`findOneAndDelete` on the `Username` key); a JWT is a record of its claims plus
the secret that signed it (signature validity = the verifier holds the same
secret).
-/

namespace MovieBase

/-- JSON values, used to state what a response body or a token payload
actually carries over the wire. -/
inductive JValue where
| null : JValue
| bool : Bool → JValue
| num : Nat → JValue
| str : String → JValue
| arr : List JValue → JValue
| obj : List (String × JValue) → JValue

/-- User record as stored in the document store.  Field names follow the
mongoose schema used throughout `index.js` (`Username`, `Password` (the stored
hash), `Email`, `Birthday`, `FavoriteMovies`). -/
structure User where
  Username : String
  Password : String
  Email : String
  Birthday : Option String
  FavoriteMovies : List String
deriving DecidableEq

/-- Request body of `POST /users` and `PUT /users/:Username` in `index.js`. -/
structure UserBody where
  Username : String
  Password : String
  Email : String
  Birthday : Option String
deriving DecidableEq

/-- Mongoose `findOne on Username`: first record in the store whose
`Username` equals the key. -/
def findByUsername (store : List User) (name : String) : Option User :=
  store.find? (fun u => u.Username == name)

/-- Mongoose `findOneAndUpdate` on the `Username` key: replace the first
matching record. -/
def updateFirst : List User → String → User → List User
| [], _, _ => []
| u :: rest, name, u2 =>
    if u.Username == name then u2 :: rest else u :: updateFirst rest name u2

/-- Mongoose `findOneAndDelete` on the `Username` key: drop the first
matching record. -/
def removeFirst : List User → String → List User
| [], _ => []
| u :: rest, name =>
    if u.Username == name then rest else u :: removeFirst rest name

/-- Modelled from the spec: `models.js` (the bcrypt-backed `hashPassword`) is
not under the provided sources.  The spec asks only for a salted one-way
bcrypt-class function; the model keeps the single property the core uses,
that hashing is deterministic and distinct plaintexts give distinct hashes. -/
def hashPassword (plaintext : String) : String :=
  "bcrypt$" ++ plaintext

/-- Modelled from the spec: the `validatePassword` comparison of `models.js`
is not under the provided sources.  Spec contract:
`verify(plaintext, storedHash) -> bool`, true exactly when the plaintext
hashes to the stored hash. -/
def verifyPassword (plaintext storedHash : String) : Bool :=
  hashPassword plaintext == storedHash

/-- Outcome of a credential check or a token check
(`Authenticated(principal)` or `Rejected(reason)`). -/
inductive AuthResult where
| authenticated : User → AuthResult
| rejected : String → AuthResult
deriving DecidableEq

/-- Hardcoded signing secret from `auth.js`
(`const jwtSecret = "your_jwt_secret"`). -/
def jwtSecret : String := "your_jwt_secret"

/-- A signed JWT as issued by `jsonwebtoken.sign`: the payload claims, the
registered claims (`sub`, `iat`, `exp`), the algorithm, and the secret that
produced the signature.  A verifier holding the same secret accepts the
signature; any other secret value models an invalid signature. -/
structure Token where
  payload : JValue
  sub : String
  iat : Nat
  exp : Nat
  alg : String
  sig : String

/-- Modelled from the spec: `models.js` and its mongoose `toJSON` are not
under the provided sources.  The spec's Principal carries username, stored
password hash, email and optional birthday; mongoose serialization emits every
schema field, so the favorites list rides along. -/
def userToJSON (u : User) : JValue :=
  JValue.obj
    [("Username", JValue.str u.Username),
     ("Password", JValue.str u.Password),
     ("Email", JValue.str u.Email),
     ("Birthday", match u.Birthday with
       | some b => JValue.str b
       | none => JValue.null),
     ("FavoriteMovies", JValue.arr (u.FavoriteMovies.map JValue.str))]

/-- Seven days in seconds, the `expiresIn: "7d"` option of `auth.js`. -/
def sevenDays : Nat := 7 * 24 * 60 * 60

/-- Token issuer from `auth.js`: `jwt.sign(user, jwtSecret, ...)` with the
whole serialized user as payload, `subject: user.Username`,
`expiresIn: "7d"` and `algorithm: "HS256"`. -/
def generateJWTToken (user : User) (now : Nat) : Token :=
  { payload := userToJSON user
    sub := user.Username
    iat := now
    exp := now + sevenDays
    alg := "HS256"
    sig := jwtSecret }

/-- Modelled from the spec: the passport `LocalStrategy` of `passport.js` is
not under the provided sources.  Spec algorithm: look the username up in the
store; no record yields `Rejected("unknown username")`, a failed hash
comparison yields `Rejected("wrong password")`, a match yields
`Authenticated(principal)`. -/
def authenticate (store : List User) (username plaintext : String) : AuthResult :=
  match findByUsername store username with
  | none => AuthResult.rejected "unknown username"
  | some p =>
      if verifyPassword plaintext p.Password then AuthResult.authenticated p
      else AuthResult.rejected "wrong password"

/-- Externally visible outcome of `POST /login`: the HTTP status, the
`message` field of the body when present, the `user` field of the body, and
the issued token when one was issued. -/
structure LoginOutcome where
  status : Nat
  bodyMessage : Option String
  bodyUser : JValue
  token : Option Token

/-- Login endpoint from `auth.js`: on a rejected credential check respond
`400 Something is not right` with the (absent) user in the body; on success
issue a token and respond with the serialized user and the token.  The null
`user` field of the failure body is modelled from the spec, which records
that the reference failure body leaks a null user field (`passport.js` is not
under the provided sources). -/
def postLogin (store : List User) (username password : String) (now : Nat) :
    LoginOutcome :=
  match authenticate store username password with
  | AuthResult.rejected _ =>
      { status := 400
        bodyMessage := some "Something is not right"
        bodyUser := JValue.null
        token := none }
  | AuthResult.authenticated user =>
      { status := 200
        bodyMessage := none
        bodyUser := userToJSON user
        token := some (generateJWTToken user now) }

/-- Modelled from the spec: the passport `JWTStrategy` of `passport.js` is not
under the provided sources.  Spec contract for the token gate: a missing or
malformed token yields `Rejected("missing credentials")`; a bad signature
yields `Rejected("invalid token")`; an expiry in the past yields
`Rejected("expired")`; otherwise the subject is resolved through the store,
yielding `Authenticated(principal)` or `Rejected("unknown principal")`. -/
def verifyToken (tok : Option Token) (now : Nat) (store : List User) : AuthResult :=
  match tok with
  | none => AuthResult.rejected "missing credentials"
  | some t =>
      if t.sig ≠ jwtSecret then AuthResult.rejected "invalid token"
      else if t.exp < now then AuthResult.rejected "expired"
      else
        match findByUsername store t.sub with
        | none => AuthResult.rejected "unknown principal"
        | some p => AuthResult.authenticated p

/-- HTTP response body: `res.send` text or `res.json` JSON. -/
inductive HttpBody where
| text : String → HttpBody
| json : JValue → HttpBody

/-- HTTP response of a route handler. -/
structure Response where
  status : Nat
  body : HttpBody

/-- Shared ownership-gate failure response of `index.js`:
`res.status(400).send("Permission denied")`. -/
def permissionDenied : Response :=
  { status := 400, body := HttpBody.text "Permission denied" }

/-- Authentication-required response produced when the token gate rejects a
request on a protected route. -/
def authFailure (reason : String) : Response :=
  { status := 401, body := HttpBody.text reason }

/-- Wiring of every protected route in `index.js`:
`passport.authenticate("jwt", { session: false })` runs first and only on
`Authenticated` does the route handler run.  The strategy middleware itself is
modelled from the spec (`passport.js` is not under the provided sources); the
boolean records whether the handler executed. -/
def runProtected (tok : Option Token) (now : Nat) (store : List User)
    (handler : User → List User → Response × List User) :
    Response × List User × Bool :=
  match verifyToken tok now store with
  | AuthResult.rejected r => (authFailure r, store, false)
  | AuthResult.authenticated p =>
      let out := handler p store
      (out.1, out.2, true)

/-- MongoDB `$addToSet`: append the element at the end unless it is already a
member. -/
def addToSet (l : List String) (x : String) : List String :=
  if x ∈ l then l else l ++ [x]

/-- Projection `fields: FavoriteMovies` used by the favorites routes of
`index.js`. -/
def favoritesProjection (u : User) : JValue :=
  JValue.obj [("FavoriteMovies", JValue.arr (u.FavoriteMovies.map JValue.str))]

/-- Handler of `GET /users/:Username` (`index.js`): ownership gate, then
`findOne` and `res.json(user)` (a missed lookup serializes as JSON null). -/
def getUser (p : User) (pathUsername : String) (store : List User) :
    Response × List User :=
  if p.Username ≠ pathUsername then (permissionDenied, store)
  else
    match findByUsername store pathUsername with
    | some u => ({ status := 200, body := HttpBody.json (userToJSON u) }, store)
    | none => ({ status := 200, body := HttpBody.json JValue.null }, store)

/-- Handler of `POST /users/:Username/movies/:MovieID` (`index.js`):
ownership gate, then `findOneAndUpdate` with `$addToSet` on `FavoriteMovies`
under the `FavoriteMovies` projection. -/
def addFavorite (p : User) (pathUsername movieID : String) (store : List User) :
    Response × List User :=
  if p.Username ≠ pathUsername then (permissionDenied, store)
  else
    match findByUsername store pathUsername with
    | some u =>
        let u2 : User := { u with FavoriteMovies := addToSet u.FavoriteMovies movieID }
        ({ status := 200, body := HttpBody.json (favoritesProjection u2) },
         updateFirst store pathUsername u2)
    | none => ({ status := 200, body := HttpBody.json JValue.null }, store)

/-- Handler of `DELETE /users/:Username/movies/:MovieID` (`index.js`):
ownership gate, then `findOneAndUpdate` with `$pull` on `FavoriteMovies`. -/
def removeFavorite (p : User) (pathUsername movieID : String) (store : List User) :
    Response × List User :=
  if p.Username ≠ pathUsername then (permissionDenied, store)
  else
    match findByUsername store pathUsername with
    | some u =>
        let u2 : User := { u with FavoriteMovies := u.FavoriteMovies.filter (fun t => t != movieID) }
        ({ status := 200, body := HttpBody.json (favoritesProjection u2) },
         updateFirst store pathUsername u2)
    | none => ({ status := 200, body := HttpBody.json JValue.null }, store)

/-- Handler of `DELETE /users/:Username` (`index.js`): ownership gate, then
`findOneAndDelete`, answering 404 when no record matched. -/
def deleteUser (p : User) (pathUsername : String) (store : List User) :
    Response × List User :=
  if p.Username ≠ pathUsername then (permissionDenied, store)
  else
    match findByUsername store pathUsername with
    | none => ({ status := 404, body := HttpBody.text (pathUsername ++ " was not found") }, store)
    | some _ => ({ status := 200, body := HttpBody.text (pathUsername ++ " was deleted.") },
                 removeFirst store pathUsername)

/-- Validator `isAlphanumeric` of the express-validator check chain: one or
more letters or digits. -/
def isAlphanumericStr (s : String) : Bool :=
  !s.data.isEmpty && s.data.all Char.isAlphanum

/-- Characters before and after a unique at-sign, when the string has exactly
one. -/
def emailParts : List Char → Option (List Char × List Char)
| [] => none
| c :: rest =>
    if c = '@' then
      if rest.contains '@' then none else some ([], rest)
    else
      match emailParts rest with
      | some ab => some (c :: ab.1, ab.2)
      | none => none

/-- Modelled from the spec: express-validator's `isEmail` is an external
library routine; the model keeps its visible shape, one at-sign between a
nonempty local part and a dotted nonempty domain. -/
def isEmailLike (s : String) : Bool :=
  match emailParts s.data with
  | some ab => !ab.1.isEmpty && !ab.2.isEmpty && ab.2.contains '.'
  | none => false

/-- Check chain of `PUT /users/:Username` (and `POST /users`) in `index.js`,
collecting the failure messages in registration order. -/
def validationErrors (b : UserBody) : List String :=
  (if b.Username.length ≥ 5 then [] else ["Username is required"]) ++
  (if isAlphanumericStr b.Username then []
   else ["Username contains non alphanumeric characters - not allowed."]) ++
  (if b.Password == "" then ["Password is required"] else []) ++
  (if isEmailLike b.Email then [] else ["Email does not appear to be valid"])

/-- JSON body `errors: [...]` of the 422 validation response. -/
def errorsJSON (errs : List String) : JValue :=
  JValue.obj [("errors", JValue.arr (errs.map JValue.str))]

/-- Update step of `PUT /users/:Username` (`index.js`): `findOneAndUpdate` by
the path username, `$set` of every body field (password already hashed),
`new: true` returning the updated record (or JSON null when no record
matched). -/
def putUpdate (pathUsername : String) (body : UserBody) (hashed : String)
    (store : List User) : Response × List User :=
  match findByUsername store pathUsername with
  | some u =>
      let u2 : User :=
        { Username := body.Username
          Password := hashed
          Email := body.Email
          Birthday := body.Birthday
          FavoriteMovies := u.FavoriteMovies }
      ({ status := 200, body := HttpBody.json (userToJSON u2) },
       updateFirst store pathUsername u2)
  | none => ({ status := 200, body := HttpBody.json JValue.null }, store)

/-- Handler of `PUT /users/:Username` (`index.js`), in source order:
express-validator errors answer 422 first, then the password is hashed, then
the ownership gate runs, then the requested new username is checked for a
clash with another account, then the update runs. -/
def putUser (p : User) (pathUsername : String) (body : UserBody)
    (store : List User) : Response × List User :=
  if validationErrors body ≠ [] then
    ({ status := 422, body := HttpBody.json (errorsJSON (validationErrors body)) }, store)
  else
    let hashed := hashPassword body.Password
    if p.Username ≠ pathUsername then (permissionDenied, store)
    else
      match findByUsername store body.Username with
      | some existingUser =>
          if existingUser.Username ≠ pathUsername then
            ({ status := 400,
               body := HttpBody.text ("The username \"" ++ body.Username ++ "\" is already taken.") },
             store)
          else putUpdate pathUsername body hashed store
      | none => putUpdate pathUsername body hashed store

mutual

/-- Whether the string `t` occurs anywhere in a JSON value as a string leaf;
used to state what a response or payload transmits. -/
def jsonContainsStr : JValue → String → Bool
| JValue.null, _ => false
| JValue.bool _, _ => false
| JValue.num _, _ => false
| JValue.str s, t => s == t
| JValue.arr xs, t => jsonListContains xs t
| JValue.obj fields, t => jsonFieldsContain fields t

/-- Occurrence of a string leaf in a list of JSON values. -/
def jsonListContains : List JValue → String → Bool
| [], _ => false
| v :: rest, t => jsonContainsStr v t || jsonListContains rest t

/-- Occurrence of a string leaf among the values of JSON object fields. -/
def jsonFieldsContain : List (String × JValue) → String → Bool
| [], _ => false
| kv :: rest, t => jsonContainsStr kv.2 t || jsonFieldsContain rest t

end

/-- Sample registered user (the end-to-end scenario of the spec): username
`alice5`, password `Secr3t!` stored hashed, one favorite movie. -/
def alice5 : User :=
  { Username := "alice5"
    Password := hashPassword "Secr3t!"
    Email := "a@b.com"
    Birthday := none
    FavoriteMovies := ["m1"] }

/-- Sample second user of the end-to-end scenario. -/
def bob7 : User :=
  { Username := "bob7"
    Password := hashPassword "Hunter2!"
    Email := "b@c.com"
    Birthday := none
    FavoriteMovies := [] }

/-- Request body passing every check of the express-validator chain. -/
def validBody : UserBody :=
  { Username := "alice5", Password := "NewPass1", Email := "a@b.com", Birthday := none }

/-- Request body failing the username length check. -/
def shortNameBody : UserBody :=
  { Username := "bob", Password := "NewPass1", Email := "a@b.com", Birthday := none }

/-! ## Helper lemmas about the store operations -/

theorem updateFirst_self {store : List User} {name : String} {u : User}
    (h : findByUsername store name = some u) :
    updateFirst store name u = store := by
  induction store with
  | nil => rfl
  | cons v rest ih =>
      by_cases hv : v.Username == name
      · simp only [findByUsername, List.find?, hv] at h
        cases h
        simp [updateFirst, hv]
      · simp only [findByUsername, List.find?, hv] at h
        simp [updateFirst, hv, ih h]

theorem find_updateFirst {store : List User} {name : String} {u : User}
    (h : findByUsername store name = some u) (u2 : User)
    (hname : u2.Username = u.Username) :
    findByUsername (updateFirst store name u2) name = some u2 := by
  induction store with
  | nil => simp [findByUsername] at h
  | cons v rest ih =>
      by_cases hv : v.Username == name
      · simp only [findByUsername, List.find?, hv] at h
        cases h
        simp [updateFirst, hv, findByUsername, List.find?, hname]
      · simp only [findByUsername, List.find?, hv] at h
        have hrec := ih h
        simp only [findByUsername] at hrec
        simp [updateFirst, hv, findByUsername, List.find?, hrec]

theorem addToSet_of_mem {l : List String} {x : String} (h : x ∈ l) :
    addToSet l x = l := by
  simp [addToSet, h]

theorem mem_addToSet (l : List String) (x : String) : x ∈ addToSet l x := by
  by_cases h : x ∈ l <;> simp [addToSet, h]

theorem addToSet_idem (l : List String) (x : String) :
    addToSet (addToSet l x) x = addToSet l x :=
  addToSet_of_mem (mem_addToSet l x)

theorem nodup_addToSet {l : List String} (x : String) (h : l.Nodup) :
    (addToSet l x).Nodup := by
  by_cases hx : x ∈ l
  · simpa [addToSet, hx] using h
  · simp [addToSet, hx, List.nodup_append, h]

theorem response_ne_of_status {r1 r2 : Response} (h : r1.status ≠ r2.status) :
    r1 ≠ r2 :=
  fun hc => h (congrArg Response.status hc)

theorem taken_text_ne (s : String) :
    ("The username \"" ++ s ++ "\" is already taken." : String) ≠ "Permission denied" := by
  intro h
  have hl := congrArg String.length h
  rw [String.length_append, String.length_append] at hl
  have h14 : ("The username \"" : String).length = 14 := rfl
  have h19 : ("\" is already taken." : String).length = 19 := rfl
  have h17 : ("Permission denied" : String).length = 17 := rfl
  rw [h14, h19, h17] at hl
  omega

/-! ## Claim theorems -/

/-- C5: for every authenticated principal, token issuance encodes the
principal's username as the subject, stamps the issuance time, sets the
expiry to exactly issuance time plus 7 days, and signs HS256 with the fixed
symmetric secret the verifier shares; being a pure function of the user and
the clock, issuance has no other effect. -/
theorem generateJWTToken_fields (user : User) (now : Nat) :
    (generateJWTToken user now).sub = user.Username ∧
    (generateJWTToken user now).iat = now ∧
    (generateJWTToken user now).exp = now + 7 * 24 * 60 * 60 ∧
    (generateJWTToken user now).alg = "HS256" ∧
    (generateJWTToken user now).sig = jwtSecret :=
  ⟨rfl, rfl, rfl, rfl, rfl⟩

/-- C3: round-trip law — for a principal registered in the store, verifying
the token issued for it, at the same clock instant and over the same store,
yields `Authenticated` of that very principal. -/
theorem verify_issue_roundtrip (store : List User) (p : User) (now : Nat)
    (h : findByUsername store p.Username = some p) :
    verifyToken (some (generateJWTToken p now)) now store =
      AuthResult.authenticated p := by
  simp [verifyToken, generateJWTToken, h, sevenDays]

/-- Closed instance of the round-trip law at the registered user `alice5`. -/
theorem verify_issue_roundtrip_witness :
    verifyToken (some (generateJWTToken alice5 1000)) 1000 [alice5] =
      AuthResult.authenticated alice5 :=
  verify_issue_roundtrip [alice5] alice5 1000 (by decide)

/-- C6: any token, verified at or past one second beyond its 7-day expiry,
is rejected as expired no matter what the store holds. -/
theorem verify_after_expiry_rejected (p : User) (now t : Nat) (store : List User)
    (h : now + 7 * 24 * 60 * 60 + 1 ≤ t) :
    verifyToken (some (generateJWTToken p now)) t store =
      AuthResult.rejected "expired" := by
  have hcond : (generateJWTToken p now).exp < t := by
    simp only [generateJWTToken, sevenDays]
    omega
  simp [verifyToken, generateJWTToken, sevenDays] at hcond ⊢
  simp [hcond]

/-- Closed instance of expiry rejection one second past the boundary, over an
empty store. -/
theorem verify_after_expiry_rejected_witness :
    verifyToken (some (generateJWTToken alice5 100)) (100 + 7 * 24 * 60 * 60 + 1) [] =
      AuthResult.rejected "expired" :=
  verify_after_expiry_rejected alice5 100 (100 + 7 * 24 * 60 * 60 + 1) [] (by omega)

/-- C4: two-run indistinguishability of login failure — an unknown username
with any password and a registered username with a wrong password produce
identical externally visible login outcomes (same status, same message, same
body), so the boundary never separates the two causes. -/
theorem login_failure_indistinguishable (store : List User)
    (u1 pw1 u2 pw2 : String) (n1 n2 : Nat) (r : User)
    (h1 : findByUsername store u1 = none)
    (h2 : findByUsername store u2 = some r)
    (h3 : verifyPassword pw2 r.Password = false) :
    postLogin store u1 pw1 n1 = postLogin store u2 pw2 n2 ∧
    (postLogin store u1 pw1 n1).status = 400 ∧
    (postLogin store u1 pw1 n1).bodyMessage = some "Something is not right" := by
  simp [postLogin, authenticate, h1, h2, h3]

/-- Closed instance: failing login as the unregistered `nobody` and failing
login as the registered `alice5` with a wrong password are indistinguishable. -/
theorem login_failure_indistinguishable_witness :
    postLogin [alice5] "nobody" "pw" 3 = postLogin [alice5] "alice5" "wrong" 9 ∧
    (postLogin [alice5] "nobody" "pw" 3).status = 400 ∧
    (postLogin [alice5] "nobody" "pw" 3).bodyMessage = some "Something is not right" :=
  login_failure_indistinguishable [alice5] "nobody" "pw" "alice5" "wrong" 3 9 alice5
    (by decide) (by decide) (by decide)

/-- C7: `POST /login` answers 200 with the serialized user and the issued
token on every successful credential check, and 400 with the message field
and a null user field on every failed credential check. -/
theorem login_response_shape (store : List User) (u pw : String) (now : Nat) :
    (∀ p : User, authenticate store u pw = AuthResult.authenticated p →
      postLogin store u pw now =
        { status := 200, bodyMessage := none, bodyUser := userToJSON p,
          token := some (generateJWTToken p now) }) ∧
    (∀ r : String, authenticate store u pw = AuthResult.rejected r →
      postLogin store u pw now =
        { status := 400, bodyMessage := some "Something is not right",
          bodyUser := JValue.null, token := none }) := by
  constructor
  · intro p h
    simp [postLogin, h]
  · intro r h
    simp [postLogin, h]

/-- Closed instances of both login response shapes at the registered user
`alice5`. -/
theorem login_response_shape_witness :
    postLogin [alice5] "alice5" "Secr3t!" 7 =
      { status := 200, bodyMessage := none, bodyUser := userToJSON alice5,
        token := some (generateJWTToken alice5 7) } ∧
    postLogin [alice5] "alice5" "oops" 7 =
      { status := 400, bodyMessage := some "Something is not right",
        bodyUser := JValue.null, token := none } :=
  ⟨(login_response_shape [alice5] "alice5" "Secr3t!" 7).1 alice5 (by decide),
   (login_response_shape [alice5] "alice5" "oops" 7).2 "wrong password" (by decide)⟩

/-- C1 fails on the code: at the registered user `alice5`, the successful
login outcome carries the full serialized user — stored password hash
included — in the body's user field, and the token whose payload is that same
serialization; the hash is transmitted in both places the claim says it never
appears. -/
theorem login_transmits_password_hash :
    jsonContainsStr (postLogin [alice5] "alice5" "Secr3t!" 0).bodyUser
      alice5.Password = true ∧
    (postLogin [alice5] "alice5" "Secr3t!" 0).token = some (generateJWTToken alice5 0) ∧
    jsonContainsStr (generateJWTToken alice5 0).payload alice5.Password = true := by
  refine ⟨?_, ?_, ?_⟩ <;> rfl

/-- C8: on every protected route, whenever the token gate rejects — missing,
malformed, expired or badly signed token — the route handler never executes
and the store is untouched. -/
theorem token_gate_blocks_handler (tok : Option Token) (now : Nat)
    (store : List User) (handler : User → List User → Response × List User)
    (r : String) (h : verifyToken tok now store = AuthResult.rejected r) :
    runProtected tok now store handler = (authFailure r, store, false) := by
  simp [runProtected, h]

/-- Closed instance: a request with no token on the profile-read route is
turned away with the handler never run. -/
theorem token_gate_blocks_handler_witness :
    runProtected none 0 [alice5] (fun q st => getUser q "alice5" st) =
      (authFailure "missing credentials", [alice5], false) :=
  token_gate_blocks_handler none 0 [alice5] (fun q st => getUser q "alice5" st)
    "missing credentials" rfl

/-! ## Ownership gate lemmas, one per handler -/

theorem getUser_mismatch {p : User} {path : String} (store : List User)
    (h : p.Username ≠ path) : getUser p path store = (permissionDenied, store) := by
  simp [getUser, h]

theorem deleteUser_mismatch {p : User} {path : String} (store : List User)
    (h : p.Username ≠ path) : deleteUser p path store = (permissionDenied, store) := by
  simp [deleteUser, h]

theorem addFavorite_mismatch {p : User} {path : String} (movieID : String)
    (store : List User) (h : p.Username ≠ path) :
    addFavorite p path movieID store = (permissionDenied, store) := by
  simp [addFavorite, h]

theorem removeFavorite_mismatch {p : User} {path : String} (movieID : String)
    (store : List User) (h : p.Username ≠ path) :
    removeFavorite p path movieID store = (permissionDenied, store) := by
  simp [removeFavorite, h]

theorem putUser_mismatch {p : User} {path : String} {body : UserBody}
    (store : List User) (hval : validationErrors body = [])
    (h : p.Username ≠ path) : putUser p path body store = (permissionDenied, store) := by
  simp [putUser, hval, h]

theorem getUser_own_not_denied {p : User} {path : String} (store : List User)
    (h : p.Username = path) : (getUser p path store).1 ≠ permissionDenied := by
  cases hf : findByUsername store path with
  | some u => simp [getUser, h, hf, permissionDenied]
  | none => simp [getUser, h, hf, permissionDenied]

theorem deleteUser_own_not_denied {p : User} {path : String} (store : List User)
    (h : p.Username = path) : (deleteUser p path store).1 ≠ permissionDenied := by
  cases hf : findByUsername store path with
  | some u => simp [deleteUser, h, hf, permissionDenied]
  | none => simp [deleteUser, h, hf, permissionDenied]

theorem addFavorite_own_not_denied {p : User} {path : String} (movieID : String)
    (store : List User) (h : p.Username = path) :
    (addFavorite p path movieID store).1 ≠ permissionDenied := by
  cases hf : findByUsername store path with
  | some u => simp [addFavorite, h, hf, permissionDenied]
  | none => simp [addFavorite, h, hf, permissionDenied]

theorem removeFavorite_own_not_denied {p : User} {path : String} (movieID : String)
    (store : List User) (h : p.Username = path) :
    (removeFavorite p path movieID store).1 ≠ permissionDenied := by
  cases hf : findByUsername store path with
  | some u => simp [removeFavorite, h, hf, permissionDenied]
  | none => simp [removeFavorite, h, hf, permissionDenied]

theorem putUpdate_not_denied (path : String) (body : UserBody) (hashed : String)
    (store : List User) : (putUpdate path body hashed store).1 ≠ permissionDenied := by
  cases hf : findByUsername store path with
  | some u => simp [putUpdate, hf, permissionDenied]
  | none => simp [putUpdate, hf, permissionDenied]

theorem putUser_own_not_denied {p : User} {path : String} {body : UserBody}
    (store : List User) (hval : validationErrors body = [])
    (h : p.Username = path) : (putUser p path body store).1 ≠ permissionDenied := by
  cases hfe : findByUsername store body.Username with
  | none =>
      simp only [putUser, hval, ne_eq, not_true_eq_false, if_false, h, hfe]
      exact putUpdate_not_denied path body (hashPassword body.Password) store
  | some ex =>
      by_cases hex : ex.Username = path
      · simp only [putUser, hval, ne_eq, not_true_eq_false, if_false, h, hfe, hex]
        exact putUpdate_not_denied path body (hashPassword body.Password) store
      · simp only [putUser, hval, ne_eq, not_true_eq_false, if_false, h, hfe, hex,
          not_false_eq_true, if_true]
        intro hc
        have hb := congrArg Response.body hc
        simp only [permissionDenied] at hb
        injection hb with hs
        exact taken_text_ne body.Username hs

/-- C2 fails as stated on the profile-update route: the principal `bob7`
requesting `alice5`'s profile with a body that fails validation receives the
422 validation response, not the generic permission-denied response the claim
promises for every mismatch. -/
theorem put_mismatch_invalid_body_not_denied :
    bob7.Username ≠ "alice5" ∧
    (putUser bob7 "alice5" shortNameBody [alice5]).1.status = 422 ∧
    (putUser bob7 "alice5" shortNameBody [alice5]).1 ≠ permissionDenied := by
  refine ⟨by decide, rfl, ?_⟩
  exact response_ne_of_status (by decide)

/-- C2 (amended): on every user-scoped route the resource operation runs only
for the owner — a mismatched principal gets the generic permission-denied
response with the store untouched, and a matching principal is never answered
with permission denied — where for the profile-update route this holds among
requests whose body passes validation (an invalid body is answered by the 422
validation response before the gate runs). -/
theorem ownership_gate_governs_user_routes (p : User) (pathUsername movieID : String)
    (body : UserBody) (store : List User) :
    (p.Username ≠ pathUsername →
      getUser p pathUsername store = (permissionDenied, store) ∧
      deleteUser p pathUsername store = (permissionDenied, store) ∧
      addFavorite p pathUsername movieID store = (permissionDenied, store) ∧
      removeFavorite p pathUsername movieID store = (permissionDenied, store) ∧
      (validationErrors body = [] →
        putUser p pathUsername body store = (permissionDenied, store))) ∧
    (p.Username = pathUsername →
      (getUser p pathUsername store).1 ≠ permissionDenied ∧
      (deleteUser p pathUsername store).1 ≠ permissionDenied ∧
      (addFavorite p pathUsername movieID store).1 ≠ permissionDenied ∧
      (removeFavorite p pathUsername movieID store).1 ≠ permissionDenied ∧
      (validationErrors body = [] →
        (putUser p pathUsername body store).1 ≠ permissionDenied)) := by
  constructor
  · intro h
    exact ⟨getUser_mismatch store h, deleteUser_mismatch store h,
      addFavorite_mismatch movieID store h, removeFavorite_mismatch movieID store h,
      fun hval => putUser_mismatch store hval h⟩
  · intro h
    exact ⟨getUser_own_not_denied store h, deleteUser_own_not_denied store h,
      addFavorite_own_not_denied movieID store h,
      removeFavorite_own_not_denied movieID store h,
      fun hval => putUser_own_not_denied store hval h⟩

/-- Closed instances of the amended ownership law: `alice5` reading `bob7`'s
profile is denied with the store untouched, and `alice5` reading her own
profile is not denied. -/
theorem ownership_gate_governs_user_routes_witness :
    getUser alice5 "bob7" [alice5, bob7] = (permissionDenied, [alice5, bob7]) ∧
    (getUser alice5 "alice5" [alice5, bob7]).1 ≠ permissionDenied :=
  ⟨((ownership_gate_governs_user_routes alice5 "bob7" "m1" validBody [alice5, bob7]).1
      (by decide)).1,
   ((ownership_gate_governs_user_routes alice5 "alice5" "m1" validBody [alice5, bob7]).2
      rfl).1⟩

/-- Reduction of the favorites-add handler for the owner when the user record
is found. -/
theorem addFavorite_eq (p : User) (pathUsername movieID : String)
    (store : List User) (u : User) (hown : p.Username = pathUsername)
    (hfind : findByUsername store pathUsername = some u) :
    addFavorite p pathUsername movieID store =
      ({ status := 200,
         body := HttpBody.json (favoritesProjection
           { u with FavoriteMovies := addToSet u.FavoriteMovies movieID }) },
       updateFirst store pathUsername
         { u with FavoriteMovies := addToSet u.FavoriteMovies movieID }) := by
  unfold addFavorite
  rw [if_neg (fun hc => hc hown), hfind]

/-- C9: favorites addition is idempotent and duplicate-free — an owner adding
a movie already in the favorites list leaves the store unchanged, adding
twice yields the same store as adding once, and the updated favorites list
stays duplicate-free. -/
theorem addFavorite_idempotent (p : User) (pathUsername movieID : String)
    (store : List User) (u : User) (hown : p.Username = pathUsername)
    (hfind : findByUsername store pathUsername = some u) :
    (movieID ∈ u.FavoriteMovies →
      addFavorite p pathUsername movieID store =
        ({ status := 200, body := HttpBody.json (favoritesProjection u) }, store)) ∧
    (addFavorite p pathUsername movieID (addFavorite p pathUsername movieID store).2).2 =
      (addFavorite p pathUsername movieID store).2 ∧
    (u.FavoriteMovies.Nodup → ∀ u3 : User,
      findByUsername (addFavorite p pathUsername movieID store).2 pathUsername = some u3 →
      u3.FavoriteMovies.Nodup) := by
  have h1 := addFavorite_eq p pathUsername movieID store u hown hfind
  have hfind1 : findByUsername
      (updateFirst store pathUsername
        { u with FavoriteMovies := addToSet u.FavoriteMovies movieID }) pathUsername =
      some { u with FavoriteMovies := addToSet u.FavoriteMovies movieID } :=
    find_updateFirst hfind _ rfl
  refine ⟨?_, ?_, ?_⟩
  · intro hmem
    rw [h1]
    have key : ({ u with FavoriteMovies := addToSet u.FavoriteMovies movieID } : User) = u := by
      rw [addToSet_of_mem hmem]
    rw [key, updateFirst_self hfind]
  · rw [h1]
    have h2 := addFavorite_eq p pathUsername movieID
      (updateFirst store pathUsername
        { u with FavoriteMovies := addToSet u.FavoriteMovies movieID })
      { u with FavoriteMovies := addToSet u.FavoriteMovies movieID } hown hfind1
    rw [h2]
    simp only [addToSet_idem]
    exact updateFirst_self hfind1
  · intro hnd u3 hfind3
    rw [h1] at hfind3
    rw [hfind1] at hfind3
    injection hfind3 with h4
    rw [← h4]
    exact nodup_addToSet movieID hnd

/-- Closed instance: `alice5` re-adding her already favorite `m1` changes
nothing, and the double add equals the single add. -/
theorem addFavorite_idempotent_witness :
    addFavorite alice5 "alice5" "m1" [alice5] =
      ({ status := 200, body := HttpBody.json (favoritesProjection alice5) }, [alice5]) ∧
    (addFavorite alice5 "alice5" "m1" (addFavorite alice5 "alice5" "m1" [alice5]).2).2 =
      (addFavorite alice5 "alice5" "m1" [alice5]).2 := by
  have h := addFavorite_idempotent alice5 "alice5" "m1" [alice5] alice5 rfl (by decide)
  exact ⟨h.1 (by decide), h.2.1⟩

/-- C10: in the profile-update handler, body validation runs before the
ownership gate — a mismatched principal submitting an invalid body receives
the 422 validation response (not permission denied) and the store is not
written. -/
theorem put_validation_precedes_ownership (p : User) (pathUsername : String)
    (body : UserBody) (store : List User)
    (hbad : validationErrors body ≠ [])
    (_hdiff : p.Username ≠ pathUsername) :
    putUser p pathUsername body store =
      ({ status := 422, body := HttpBody.json (errorsJSON (validationErrors body)) },
       store) ∧
    (putUser p pathUsername body store).1 ≠ permissionDenied := by
  have h1 : putUser p pathUsername body store =
      ({ status := 422, body := HttpBody.json (errorsJSON (validationErrors body)) },
       store) := by
    simp [putUser, hbad]
  refine ⟨h1, ?_⟩
  rw [h1]
  exact response_ne_of_status (by simp [permissionDenied])

/-- Closed instance: `bob7` sending an invalid body to `alice5`'s
profile-update route gets 422, not permission denied, with no store write. -/
theorem put_validation_precedes_ownership_witness :
    putUser bob7 "alice5" shortNameBody [alice5] =
      ({ status := 422,
         body := HttpBody.json (errorsJSON (validationErrors shortNameBody)) },
       [alice5]) ∧
    (putUser bob7 "alice5" shortNameBody [alice5]).1 ≠ permissionDenied :=
  put_validation_precedes_ownership bob7 "alice5" shortNameBody [alice5]
    (by decide) (by decide)

end MovieBase
